import Mathlib

/-!
Verification of the copy-trade change-detection and replication engine.

The Python sources are shallowly embedded:
* numeric position fields (volumes, prices, stop-loss/take-profit) are
  modelled as exact rationals (`ℚ`), an idealisation of IEEE doubles;
* wall-clock timestamps (`datetime.now()`) are omitted: no verified
  property reads them;
* the MetaTrader 5 library is an explicit environment (`MT5Env`) of pure
  functions, and every call into it is recorded in a trace (`GCall`);
* a Python exception that escapes a handler is an `Except.error`;
* Python `dict`s (the monitor snapshot, the tracker mapping table) are
  insertion-ordered association lists with first-occurrence update
  semantics, exactly the order a `dict` iterates in.
-/

namespace CopyTrade

/-- Python `round(x, 8)`: scale by `10^8` and round half to even. -/
def pyRound8 (x : ℚ) : ℚ :=
  let scaled := x * 100000000
  let fl : ℤ := Int.floor scaled
  let frac : ℚ := scaled - (fl : ℚ)
  let n : ℤ :=
    if frac < 1/2 then fl
    else if 1/2 < frac then fl + 1
    else if fl % 2 = 0 then fl else fl + 1
  (n : ℚ) / 100000000

/-! ## Data model (`models/trade_models.py`) -/

/-- `trade_models.TradePosition`: an open position read from MT5.
`time`/`time_update` are abstract integer instants. -/
structure TradePosition where
  ticket : ℤ
  symbol : String
  type : ℤ
  volume : ℚ
  price_open : ℚ
  price_current : ℚ
  sl : ℚ
  tp : ℚ
  profit : ℚ := 0
  swap : ℚ := 0
  time : ℤ := 0
  time_update : ℤ := 0
  magic : ℤ := 0
  comment : String := ""
deriving DecidableEq, Repr

/-- `trade_models.TradeEventType`. -/
inductive TradeEventType where
  | NEW_POSITION
  | CLOSED_POSITION
  | MODIFIED_SL
  | MODIFIED_TP
  | PARTIAL_CLOSE
deriving DecidableEq, Repr

/-- `trade_models.TradeEvent` (the wall-clock `timestamp` field is omitted). -/
structure TradeEvent where
  event_type : TradeEventType
  master_ticket : ℤ
  position : Option TradePosition := none
  previous_position : Option TradePosition := none
deriving DecidableEq, Repr

/-- `trade_models.PositionMapping`. -/
structure PositionMapping where
  master_ticket : ℤ
  slave_ticket : ℤ
  symbol : String
  direction : String
  master_volume : ℚ
  slave_volume : ℚ
  master_open_price : ℚ
  slave_open_price : ℚ
  master_sl : ℚ := 0
  master_tp : ℚ := 0
  slave_sl : ℚ := 0
  slave_tp : ℚ := 0
  opened_at : String := ""
  risk_percent : ℚ := 0
deriving DecidableEq, Repr

/-- `trade_models.OrderResult`. -/
structure OrderResult where
  success : Bool
  ticket : Option ℤ := none
  volume : Option ℚ := none
  price : Option ℚ := none
  error_code : Option ℤ := none
  error_message : Option String := none
  retcode : Option ℤ := none
deriving DecidableEq, Repr

/-! ## Snapshot differencer (`services/monitor_service.py`) -/

/-- The comparison tolerance used throughout `detect_changes` (`1e-6`). -/
def eps : ℚ := 1/1000000

/-- One `dict` insertion `d[p.ticket] = p`: an existing key keeps its
position and takes the new value, a new key is appended. -/
def snapInsert (acc : List TradePosition) (p : TradePosition) : List TradePosition :=
  match acc with
  | [] => [p]
  | q :: rest => if q.ticket = p.ticket then p :: rest else q :: snapInsert rest p

/-- `{pos.ticket: pos for pos in current_positions}`: the snapshot `dict`
in Python insertion order. -/
def buildSnapshot (ps : List TradePosition) : List TradePosition :=
  ps.foldl snapInsert []

/-- `snapshot[t]` as an option: the first (hence, for a `dict`, the only)
entry with ticket `t`. -/
def lookupTicket (ps : List TradePosition) (t : ℤ) : Option TradePosition :=
  ps.find? (fun p => p.ticket == t)

/-- `t in snapshot`. -/
def hasTicket (ps : List TradePosition) (t : ℤ) : Bool :=
  (lookupTicket ps t).isSome

/-- `MonitorService` state: the retained previous snapshot and the
initialized flag. -/
structure MonitorState where
  previous_snapshot : List TradePosition := []
  initialized : Bool := false
deriving DecidableEq, Repr

/-- Events appended for one ticket in the modification loop of
`detect_changes` (step 3): SL, then TP, then volume decrease. -/
def modEventsFor (c pr : TradePosition) : List TradeEvent :=
  (if eps < |c.sl - pr.sl| then
    [{ event_type := .MODIFIED_SL, master_ticket := c.ticket,
       position := some c, previous_position := some pr }] else [])
  ++ (if eps < |c.tp - pr.tp| then
    [{ event_type := .MODIFIED_TP, master_ticket := c.ticket,
       position := some c, previous_position := some pr }] else [])
  ++ (if c.volume < pr.volume - eps then
    [{ event_type := .PARTIAL_CLOSE, master_ticket := c.ticket,
       position := some c, previous_position := some pr }] else [])

/-- `MonitorService.detect_changes`: the three appending loops of the
source, as folds over the snapshot `dict`s. -/
def detect_changes (st : MonitorState) (current_positions : List TradePosition) :
    List TradeEvent × MonitorState :=
  let current_snapshot := buildSnapshot current_positions
  if st.initialized = false then
    ([], { previous_snapshot := current_snapshot, initialized := true })
  else
    let prev := st.previous_snapshot
    let ev1 := current_snapshot.foldl (fun acc p =>
      if hasTicket prev p.ticket then acc
      else acc ++ [{ event_type := .NEW_POSITION, master_ticket := p.ticket,
                     position := some p }]) []
    let ev2 := prev.foldl (fun acc p =>
      if hasTicket current_snapshot p.ticket then acc
      else acc ++ [{ event_type := .CLOSED_POSITION, master_ticket := p.ticket,
                     previous_position := some p }]) ev1
    let ev3 := current_snapshot.foldl (fun acc c =>
      match lookupTicket prev c.ticket with
      | none => acc
      | some pr => acc ++ modEventsFor c pr) ev2
    (ev3, { previous_snapshot := current_snapshot, initialized := true })

/-- `MonitorService.reset`. -/
def monitorReset (_st : MonitorState) : MonitorState :=
  { previous_snapshot := [], initialized := false }

/-- The ordered event list exactly as the specification words it: all NEW
events in current order, then all CLOSED events in previous order, then
per surviving ticket the SL/TP/volume events in that fixed order. -/
def spec_events (prev snap : List TradePosition) : List TradeEvent :=
  (snap.filter (fun p => !hasTicket prev p.ticket)).map
    (fun p => { event_type := .NEW_POSITION, master_ticket := p.ticket,
                position := some p })
  ++ (prev.filter (fun p => !hasTicket snap p.ticket)).map
    (fun p => { event_type := .CLOSED_POSITION, master_ticket := p.ticket,
                previous_position := some p })
  ++ snap.flatMap (fun c =>
      match lookupTicket prev c.ticket with
      | none => []
      | some pr => modEventsFor c pr)

/-! ## MT5 gateway embedding (`services/mt5_service.py`)

The `MetaTrader5` library is an environment of pure functions; each
library call a service function makes is recorded in a `GCall` trace, and
each `loguru` call in a `LogLevel` list. -/

/-- The fields of `mt5.symbol_info(symbol)` that the services read. -/
structure SymbolInfoRaw where
  name : String := ""
  visible : Bool := true
  filling_mode : ℤ := 1
  point : ℚ := 0
  digits : ℤ := 0
  trade_tick_value : ℚ := 0
  trade_tick_size : ℚ := 0
  trade_contract_size : ℚ := 0
  volume_min : ℚ := 1/100
  volume_max : ℚ := 100
  volume_step : ℚ := 1/100
  spread : ℤ := 0
  ask : ℚ := 0
  bid : ℚ := 0
deriving DecidableEq, Repr

/-- `mt5.symbol_info_tick(symbol)`. -/
structure Tick where
  ask : ℚ
  bid : ℚ
  last : ℚ := 0
  time : ℤ := 0
deriving DecidableEq, Repr

/-- The request `dict` passed to `mt5.order_send` (keys a given request
does not set keep their defaults). -/
structure OrderRequest where
  action : ℤ
  symbol : String
  volume : ℚ := 0
  type : ℤ := 0
  position : Option ℤ := none
  price : ℚ := 0
  sl : ℚ := 0
  tp : ℚ := 0
  deviation : ℤ := 0
  magic : ℤ := 0
  comment : String := ""
  type_time : ℤ := 0
  type_filling : ℤ := 0
deriving DecidableEq, Repr

/-- The result object `mt5.order_send` returns when it is not `None`. -/
structure SendResult where
  retcode : ℤ
  order : ℤ := 0
  price : ℚ := 0
  comment : String := ""
deriving DecidableEq, Repr

/-- The MetaTrader 5 library as a deterministic environment. -/
structure MT5Env where
  positions_get : ℤ → List TradePosition
  symbol_info : String → Option SymbolInfoRaw
  symbol_info_tick : String → Option Tick
  symbol_select : String → Bool
  order_send : OrderRequest → Option SendResult

/-- One recorded call into the MetaTrader 5 library. -/
inductive GCall where
  | positions_get (ticket : ℤ)
  | symbol_info (symbol : String)
  | symbol_info_tick (symbol : String)
  | symbol_select (symbol : String)
  | order_send (req : OrderRequest)
  | last_error
deriving DecidableEq, Repr

/-- A `loguru` call, by level. -/
inductive LogLevel where
  | debug
  | info
  | warning
  | error
deriving DecidableEq, Repr

/-- MT5 constants (`mt5.ORDER_FILLING_*`, `mt5.TRADE_*`); the services
only ever compare them for equality. -/
def ORDER_FILLING_FOK : ℤ := 0

def ORDER_FILLING_IOC : ℤ := 1

def ORDER_FILLING_RETURN : ℤ := 2

def ORDER_TYPE_BUY : ℤ := 0

def ORDER_TYPE_SELL : ℤ := 1

def TRADE_ACTION_DEAL : ℤ := 1

def TRADE_ACTION_SLTP : ℤ := 6

def ORDER_TIME_GTC : ℤ := 0

def TRADE_RETCODE_DONE : ℤ := 10009

/-- Outcome of an `MT5Service` call: the Python return value (or an
escaped exception), the library calls made, and the log lines written. -/
structure MT5Out (α : Type) where
  result : Except Unit α
  calls : List GCall
  logs : List LogLevel

/-- `MT5Service._get_filling_mode`: flag bits 2 (IOC) and 1 (FOK). -/
def get_filling_mode (env : MT5Env) (symbol : String) : ℤ × List GCall :=
  match env.symbol_info symbol with
  | none => (ORDER_FILLING_FOK, [.symbol_info symbol])
  | some si =>
    if Int.land si.filling_mode 2 ≠ 0 then (ORDER_FILLING_IOC, [.symbol_info symbol])
    else if Int.land si.filling_mode 1 ≠ 0 then (ORDER_FILLING_FOK, [.symbol_info symbol])
    else (ORDER_FILLING_RETURN, [.symbol_info symbol])

/-- The `dict` `MT5Service.get_symbol_info` builds; it always carries
every key, so the `.get(key, default)` fallbacks downstream are dead
whenever this value is present. -/
structure SymbolInfoDict where
  symbol : String
  point : ℚ
  digits : ℤ
  tick_value : ℚ
  tick_size : ℚ
  contract_size : ℚ
  volume_min : ℚ
  volume_max : ℚ
  volume_step : ℚ
  spread : ℤ
  ask : ℚ
  bid : ℚ
deriving DecidableEq, Repr

/-- Package a raw symbol info object into the service's `dict`. -/
def symbolInfoToDict (si : SymbolInfoRaw) : SymbolInfoDict :=
  { symbol := si.name, point := si.point, digits := si.digits,
    tick_value := si.trade_tick_value, tick_size := si.trade_tick_size,
    contract_size := si.trade_contract_size, volume_min := si.volume_min,
    volume_max := si.volume_max, volume_step := si.volume_step,
    spread := si.spread, ask := si.ask, bid := si.bid }

/-- `MT5Service.get_symbol_info`: `None` symbol logs an error and returns
`None`; an invisible symbol is selected and re-fetched (the deterministic
environment returns the same object). -/
def get_symbol_info (env : MT5Env) (symbol : String) :
    Option SymbolInfoDict × List GCall × List LogLevel :=
  match env.symbol_info symbol with
  | none => (none, [.symbol_info symbol], [.error])
  | some si =>
    if si.visible = false then
      (some (symbolInfoToDict si),
       [.symbol_info symbol, .symbol_select symbol, .symbol_info symbol], [])
    else
      (some (symbolInfoToDict si), [.symbol_info symbol], [])

/-- `MT5Service.place_market_order`. -/
def place_market_order (env : MT5Env) (symbol : String) (order_type : ℤ)
    (volume : ℚ) (sl : ℚ) (tp : ℚ) (deviation : ℤ) (magic : ℤ)
    (comment : String) : MT5Out OrderResult :=
  if env.symbol_select symbol = false then
    { result := .ok { success := false, error_message := some "Cannot select symbol" },
      calls := [.symbol_select symbol], logs := [] }
  else
    match env.symbol_info_tick symbol with
    | none =>
      { result := .ok { success := false, error_message := some "Cannot get tick" },
        calls := [.symbol_select symbol, .symbol_info_tick symbol], logs := [] }
    | some tick =>
      let price := if order_type = 0 then tick.ask else tick.bid
      let mt5_type := if order_type = 0 then ORDER_TYPE_BUY else ORDER_TYPE_SELL
      let fm := get_filling_mode env symbol
      let req : OrderRequest :=
        { action := TRADE_ACTION_DEAL, symbol := symbol, volume := volume,
          type := mt5_type, price := price, sl := sl, tp := tp,
          deviation := deviation, magic := magic, comment := comment,
          type_time := ORDER_TIME_GTC, type_filling := fm.1 }
      let calls := [GCall.symbol_select symbol, .symbol_info_tick symbol]
        ++ fm.2 ++ [.order_send req]
      match env.order_send req with
      | none =>
        { result := .ok { success := false, error_message := some "order_send returned None" },
          calls := calls ++ [.last_error], logs := [] }
      | some r =>
        if r.retcode ≠ TRADE_RETCODE_DONE then
          { result := .ok { success := false, error_code := some r.retcode,
                            error_message := some "Order failed", retcode := some r.retcode },
            calls := calls, logs := [] }
        else
          { result := .ok { success := true, ticket := some r.order,
                            volume := some volume, price := some r.price, retcode := some r.retcode },
            calls := calls, logs := [.info] }

/-- `MT5Service.close_position`: fetch the position, read the tick (an
absent tick raises `AttributeError` on `.bid`), then send a deal of the
position's full volume with comment `"CopyTrade Close"`. -/
def close_position (env : MT5Env) (ticket : ℤ) (deviation : ℤ) : MT5Out OrderResult :=
  match env.positions_get ticket with
  | [] =>
    { result := .ok { success := false, error_message := some "Position not found" },
      calls := [.positions_get ticket], logs := [] }
  | pos :: _ =>
    match env.symbol_info_tick pos.symbol with
    | none =>
      { result := .error (),
        calls := [.positions_get ticket, .symbol_info_tick pos.symbol], logs := [] }
    | some tick =>
      let close_type := if pos.type = 0 then ORDER_TYPE_SELL else ORDER_TYPE_BUY
      let price := if pos.type = 0 then tick.bid else tick.ask
      let fm := get_filling_mode env pos.symbol
      let req : OrderRequest :=
        { action := TRADE_ACTION_DEAL, symbol := pos.symbol, volume := pos.volume,
          type := close_type, position := some ticket, price := price,
          deviation := deviation, magic := pos.magic, comment := "CopyTrade Close",
          type_time := ORDER_TIME_GTC, type_filling := fm.1 }
      let calls := [GCall.positions_get ticket, .symbol_info_tick pos.symbol]
        ++ fm.2 ++ [.order_send req]
      match env.order_send req with
      | none =>
        { result := .ok { success := false, error_message := some "Close failed" },
          calls := calls ++ [.last_error], logs := [] }
      | some r =>
        if r.retcode ≠ TRADE_RETCODE_DONE then
          { result := .ok { success := false, error_code := some r.retcode,
                            error_message := some "Close failed", retcode := some r.retcode },
            calls := calls, logs := [] }
        else
          { result := .ok { success := true, ticket := some ticket, retcode := some r.retcode },
            calls := calls, logs := [.info] }

/-- `MT5Service.partial_close`: when the requested volume reaches the
live position's volume the call degrades to `close_position`; otherwise a
deal for `volume_to_close` with comment `"CopyTrade Partial"` is sent. -/
def partial_close (env : MT5Env) (ticket : ℤ) (volume_to_close : ℚ)
    (deviation : ℤ) : MT5Out OrderResult :=
  match env.positions_get ticket with
  | [] =>
    { result := .ok { success := false, error_message := some "Position not found" },
      calls := [.positions_get ticket], logs := [] }
  | pos :: _ =>
    if pos.volume ≤ volume_to_close then
      let o := close_position env ticket deviation
      { o with calls := .positions_get ticket :: o.calls }
    else
      match env.symbol_info_tick pos.symbol with
      | none =>
        { result := .error (),
          calls := [.positions_get ticket, .symbol_info_tick pos.symbol], logs := [] }
      | some tick =>
        let close_type := if pos.type = 0 then ORDER_TYPE_SELL else ORDER_TYPE_BUY
        let price := if pos.type = 0 then tick.bid else tick.ask
        let fm := get_filling_mode env pos.symbol
        let req : OrderRequest :=
          { action := TRADE_ACTION_DEAL, symbol := pos.symbol, volume := volume_to_close,
            type := close_type, position := some ticket, price := price,
            deviation := deviation, magic := pos.magic, comment := "CopyTrade Partial",
            type_time := ORDER_TIME_GTC, type_filling := fm.1 }
        let calls := [GCall.positions_get ticket, .symbol_info_tick pos.symbol]
          ++ fm.2 ++ [.order_send req]
        match env.order_send req with
        | none =>
          { result := .ok { success := false, error_message := some "Partial close failed" },
            calls := calls, logs := [] }
        | some r =>
          if r.retcode ≠ TRADE_RETCODE_DONE then
            { result := .ok { success := false, error_code := some r.retcode,
                              error_message := some "Partial close failed", retcode := some r.retcode },
              calls := calls, logs := [] }
          else
            { result := .ok { success := true, ticket := some ticket,
                              volume := some volume_to_close, retcode := some r.retcode },
              calls := calls, logs := [.info] }

/-! ## Position mapping store (`services/position_tracker.py`)

The tracker's `dict` is an insertion-ordered association list keyed by
master ticket.  `save_to_file` serialises the whole table; each attempt
is recorded as one entry in a `persists` list (the file-system write
itself is external I/O and its try/except never alters the in-memory
state, so only the attempted snapshot is modelled). -/

/-- The tracker's in-memory state. -/
structure TrackerState where
  mappings : List (ℤ × PositionMapping) := []
deriving DecidableEq, Repr

/-- One `save_to_file` attempt: the serialised mapping table. -/
abbrev Persist := List (ℤ × PositionMapping)

/-- `dict` write `d[k] = m`: update the first entry with key `k` in
place, or append. -/
def assocInsert (k : ℤ) (m : PositionMapping) :
    List (ℤ × PositionMapping) → List (ℤ × PositionMapping)
  | [] => [(k, m)]
  | kv :: rest => if kv.1 = k then (k, m) :: rest else kv :: assocInsert k m rest

/-- `dict.pop(k)`: drop the first entry with key `k`. -/
def assocRemove (k : ℤ) :
    List (ℤ × PositionMapping) → List (ℤ × PositionMapping)
  | [] => []
  | kv :: rest => if kv.1 = k then rest else kv :: assocRemove k rest

/-- `dict.get(k)`. -/
def assocGet (k : ℤ) : List (ℤ × PositionMapping) → Option PositionMapping
  | [] => none
  | kv :: rest => if kv.1 = k then some kv.2 else assocGet k rest

/-- Update the first entry with key `k` by `f`. -/
def assocUpdate (k : ℤ) (f : PositionMapping → PositionMapping) :
    List (ℤ × PositionMapping) → List (ℤ × PositionMapping)
  | [] => []
  | kv :: rest => if kv.1 = k then (kv.1, f kv.2) :: rest else kv :: assocUpdate k f rest

/-- Outcome of a tracker operation: new state, `save_to_file` attempts,
log lines. -/
structure TrackerOut where
  tracker : TrackerState
  persists : List Persist
  logs : List LogLevel
deriving DecidableEq, Repr

/-- `PositionTracker.has_mapping`. -/
def has_mapping (st : TrackerState) (master_ticket : ℤ) : Bool :=
  (assocGet master_ticket st.mappings).isSome

/-- `PositionTracker.get_mapping`. -/
def get_mapping (st : TrackerState) (master_ticket : ℤ) : Option PositionMapping :=
  assocGet master_ticket st.mappings

/-- `PositionTracker.add_mapping`: store under `mapping.master_ticket`,
persist, log a debug line. -/
def add_mapping (st : TrackerState) (mapping : PositionMapping) : TrackerOut :=
  let st' : TrackerState := { mappings := assocInsert mapping.master_ticket mapping st.mappings }
  { tracker := st', persists := [st'.mappings], logs := [.debug] }

/-- `PositionTracker.remove_mapping`: only a present key is removed and
persisted; an absent key is a silent no-op. -/
def remove_mapping (st : TrackerState) (master_ticket : ℤ) : TrackerOut :=
  if has_mapping st master_ticket then
    let st' : TrackerState := { mappings := assocRemove master_ticket st.mappings }
    { tracker := st', persists := [st'.mappings], logs := [.debug] }
  else
    { tracker := st, persists := [], logs := [] }

/-- `PositionTracker.update_slave_volume`: set `slave_volume` on a
present key and persist; an absent key is a silent no-op. -/
def update_slave_volume (st : TrackerState) (master_ticket : ℤ)
    (new_slave_volume : ℚ) : TrackerOut :=
  if has_mapping st master_ticket then
    let st' : TrackerState :=
      { mappings := assocUpdate master_ticket
          (fun m => { m with slave_volume := new_slave_volume }) st.mappings }
    { tracker := st', persists := [st'.mappings], logs := [] }
  else
    { tracker := st, persists := [], logs := [] }

/-- `PositionTracker.update_slave_sl_tp`: set the given SL/TP on both
sides of a present mapping and persist; an absent key is a no-op. -/
def update_slave_sl_tp (st : TrackerState) (master_ticket : ℤ)
    (sl tp : Option ℚ) : TrackerOut :=
  if has_mapping st master_ticket then
    let st' : TrackerState :=
      { mappings := assocUpdate master_ticket (fun m =>
          let m := match sl with
            | some v => { m with slave_sl := v, master_sl := v }
            | none => m
          match tp with
            | some v => { m with slave_tp := v, master_tp := v }
            | none => m) st.mappings }
    { tracker := st', persists := [st'.mappings], logs := [] }
  else
    { tracker := st, persists := [], logs := [] }

/-- The `for ticket in orphaned_master_tickets` loop of
`PositionTracker.cleanup_orphaned`: one `remove_mapping` per ticket. -/
def cleanup_loop (st : TrackerState) : List ℤ → TrackerOut
  | [] => { tracker := st, persists := [], logs := [] }
  | t :: ts =>
    let r := remove_mapping st t
    let rest := cleanup_loop r.tracker ts
    { tracker := rest.tracker, persists := r.persists ++ rest.persists,
      logs := r.logs ++ rest.logs }

/-- `PositionTracker.cleanup_orphaned`: remove each given ticket in turn
(each present one triggers its own persist inside `remove_mapping`), then
one info line when the input list is non-empty. -/
def cleanup_orphaned (st : TrackerState) (orphaned_master_tickets : List ℤ) : TrackerOut :=
  let o := cleanup_loop st orphaned_master_tickets
  if orphaned_master_tickets.isEmpty then o else { o with logs := o.logs ++ [.info] }

/-- What the backup file yields to `load_from_file`: it may be missing,
may exist but fail `json.load` (corrupt or unreadable), or parse into a
keyed collection of mapping records. -/
inductive BackupFile where
  | missing
  | unparsable
  | parsed (records : List (String × PositionMapping))
deriving DecidableEq, Repr

/-- `PositionTracker.load_from_file`: a missing file keeps the current
state; a `json.load` failure is caught, logged as an error and resets the
table to empty; parsed records are re-keyed by their `master_ticket`. -/
def load_from_file (st : TrackerState) (file : BackupFile) :
    TrackerState × List LogLevel :=
  match file with
  | .missing => (st, [.info])
  | .unparsable => ({ mappings := [] }, [.error])
  | .parsed records =>
    let mappings := records.foldl
      (fun acc r => assocInsert r.2.master_ticket r.2 acc) []
    ({ mappings := mappings }, [.info] ++ mappings.map (fun _ => LogLevel.debug))

/-! ## Replication engine (`services/copier_service.py`) -/

/-- Outcome of one copier handler: new tracker state, library calls, log
lines, persist attempts, and whether a Python exception escaped to
`process_event`'s catch-all. -/
structure HandlerOut where
  tracker : TrackerState
  calls : List GCall
  logs : List LogLevel
  persists : List Persist
  exc : Bool
deriving DecidableEq, Repr

/-- Lines 156–167 of `copier_service.py`: the close volume for a partial
close.  With symbol info present: floor to the step, raise to the
minimum, round to 8 decimals; with `get_symbol_info` returning `None`
the raw master delta is used unchanged. -/
def volume_after_normalization (info : Option SymbolInfoDict)
    (prev_volume pos_volume : ℚ) : ℚ :=
  let volume_to_close := prev_volume - pos_volume
  match info with
  | none => volume_to_close
  | some si =>
    let step := si.volume_step
    let v_min := si.volume_min
    let v := (Int.floor (volume_to_close / step) : ℚ) * step
    pyRound8 (max v v_min)

/-- `CopierService._handle_new` (`now` stands in for
`datetime.now().isoformat()`). -/
def handle_new (env : MT5Env) (st : TrackerState) (event : TradeEvent)
    (max_slippage : ℤ) (now : String) : HandlerOut :=
  match event.position with
  | none => { tracker := st, calls := [], logs := [], persists := [], exc := false }
  | some pos =>
    if has_mapping st pos.ticket then
      { tracker := st, calls := [], logs := [.warning], persists := [], exc := false }
    else
      let o := place_market_order env pos.symbol pos.type pos.volume pos.sl pos.tp
        max_slippage 888888 (String.append "CT#" (toString pos.ticket))
      match o.result with
      | .error _ =>
        { tracker := st, calls := o.calls, logs := o.logs, persists := [], exc := true }
      | .ok r =>
        if r.success = false then
          { tracker := st, calls := o.calls, logs := o.logs ++ [.error],
            persists := [], exc := false }
        else
          let mapping : PositionMapping :=
            { master_ticket := pos.ticket, slave_ticket := r.ticket.getD 0,
              symbol := pos.symbol,
              direction := if pos.type = 0 then "BUY" else "SELL",
              master_volume := pos.volume, slave_volume := pos.volume,
              master_open_price := pos.price_open,
              slave_open_price := r.price.getD 0,
              master_sl := pos.sl, master_tp := pos.tp,
              slave_sl := pos.sl, slave_tp := pos.tp, opened_at := now }
          let t := add_mapping st mapping
          { tracker := t.tracker, calls := o.calls,
            logs := o.logs ++ t.logs ++ [.info], persists := t.persists, exc := false }

/-- `CopierService._handle_close`. -/
def handle_close (env : MT5Env) (st : TrackerState) (event : TradeEvent)
    (max_slippage : ℤ) : HandlerOut :=
  match get_mapping st event.master_ticket with
  | none =>
    { tracker := st, calls := [], logs := [.warning], persists := [], exc := false }
  | some mapping =>
    let o := close_position env mapping.slave_ticket max_slippage
    match o.result with
    | .error _ =>
      { tracker := st, calls := o.calls, logs := o.logs, persists := [], exc := true }
    | .ok r =>
      if r.success = false then
        { tracker := st, calls := o.calls, logs := o.logs ++ [.error],
          persists := [], exc := false }
      else
        let t := remove_mapping st event.master_ticket
        { tracker := t.tracker, calls := o.calls,
          logs := o.logs ++ t.logs ++ [.info], persists := t.persists, exc := false }

/-- `CopierService._handle_partial_close`: look up the mapping, compute
the close volume (normalised only when symbol info is available), call
`MT5Service.partial_close`, and on success subtract the computed volume
from the mapping's `slave_volume` — the mapping is never removed here. -/
def handle_partial_close (env : MT5Env) (st : TrackerState) (event : TradeEvent)
    (max_slippage : ℤ) : HandlerOut :=
  match get_mapping st event.master_ticket with
  | none =>
    { tracker := st, calls := [], logs := [], persists := [], exc := false }
  | some mapping =>
    match event.position, event.previous_position with
    | some pos, some prev =>
      let si := get_symbol_info env pos.symbol
      let volume_to_close := volume_after_normalization si.1 prev.volume pos.volume
      let o := partial_close env mapping.slave_ticket volume_to_close max_slippage
      match o.result with
      | .error _ =>
        { tracker := st, calls := si.2.1 ++ o.calls, logs := si.2.2 ++ o.logs,
          persists := [], exc := true }
      | .ok r =>
        if r.success = false then
          { tracker := st, calls := si.2.1 ++ o.calls,
            logs := si.2.2 ++ o.logs ++ [.error], persists := [], exc := false }
        else
          let new_vol := mapping.slave_volume - volume_to_close
          let t := update_slave_volume st event.master_ticket new_vol
          { tracker := t.tracker, calls := si.2.1 ++ o.calls,
            logs := si.2.2 ++ o.logs ++ t.logs ++ [.info],
            persists := t.persists, exc := false }
    | _, _ =>
      -- `prev.volume - pos.volume` raises `AttributeError` when either
      -- side of the event is missing.
      { tracker := st, calls := [], logs := [], persists := [], exc := true }

/-- The volumes carried by the `order_send` requests of a trace. -/
def sentVolumes (calls : List GCall) : List ℚ :=
  calls.filterMap (fun g => match g with
    | .order_send req => some req.volume
    | _ => none)

/-- The comments carried by the `order_send` requests of a trace:
`"CopyTrade Close"` marks a full close, `"CopyTrade Partial"` a partial
one. -/
def sentComments (calls : List GCall) : List String :=
  calls.filterMap (fun g => match g with
    | .order_send req => some req.comment
    | _ => none)

/-! ## Spec-side companion definitions and shared observables -/

/-- The partial-close normalization formula exactly as the specification
words it: `closeVolume = floor(rawDelta / step) * step`, then
`max(closeVolume, volumeMin)`, rounded to 8 decimal places. -/
def specNormalize (rawDelta step volumeMin : ℚ) : ℚ :=
  pyRound8 (max ((Int.floor (rawDelta / step) : ℚ) * step) volumeMin)

/-- Whether `MT5Service.close_position` reports success for this ticket
in this environment. -/
def closeSucceeds (env : MT5Env) (ticket : ℤ) (deviation : ℤ) : Bool :=
  match (close_position env ticket deviation).result with
  | .ok r => r.success
  | .error _ => false

/-! ## Concrete fixtures for witnesses and counterexamples -/

/-- A gateway environment in which every lookup comes back empty. -/
def envEmpty : MT5Env :=
  { positions_get := fun _ => [], symbol_info := fun _ => none,
    symbol_info_tick := fun _ => none, symbol_select := fun _ => false,
    order_send := fun _ => none }

/-- EURUSD symbol information: step and minimum both 0.01. -/
def siEURUSD : SymbolInfoRaw :=
  { name := "EURUSD", visible := true, filling_mode := 1,
    volume_min := 1/100, volume_max := 100, volume_step := 1/100 }

/-- The EURUSD `dict` as `get_symbol_info` returns it. -/
def siEURUSDDict : SymbolInfoDict := symbolInfoToDict siEURUSD

def tick0 : Tick := { ask := 11/10, bid := 109/100 }

/-- An environment whose `order_send` always succeeds, with one open
slave position of the given volume under ticket 555. -/
def envSlave (vol : ℚ) : MT5Env :=
  { positions_get := fun t =>
      if t = 555 then
        [{ ticket := 555, symbol := "EURUSD", type := 0, volume := vol,
           price_open := 1, price_current := 1, sl := 0, tp := 0 }]
      else [],
    symbol_info := fun s => if s = "EURUSD" then some siEURUSD else none,
    symbol_info_tick := fun s => if s = "EURUSD" then some tick0 else none,
    symbol_select := fun _ => true,
    order_send := fun req => some { retcode := 10009, order := 777, price := req.price } }

/-- Master position `#100` on EURUSD with the given volume. -/
def masterPos (vol : ℚ) : TradePosition :=
  { ticket := 100, symbol := "EURUSD", type := 0, volume := vol,
    price_open := 1, price_current := 1, sl := 0, tp := 0 }

/-- A mapping `#100 → #555` whose tracked slave volume is given. -/
def mapSlave (vol : ℚ) : PositionMapping :=
  { master_ticket := 100, slave_ticket := 555, symbol := "EURUSD",
    direction := "BUY", master_volume := 1, slave_volume := vol,
    master_open_price := 1, slave_open_price := 1 }

/-- A PARTIAL_CLOSE event for `#100`: volume went from `prevVol` down to
`curVol`. -/
def pcEvent (prevVol curVol : ℚ) : TradeEvent :=
  { event_type := .PARTIAL_CLOSE, master_ticket := 100,
    position := some (masterPos curVol),
    previous_position := some (masterPos prevVol) }

/-- C1 counterexample fixture: the tracked slave volume (0.5) is below
the live slave position volume (1.0). -/
def stC1 : TrackerState := { mappings := [(100, mapSlave (1/2))] }

/-- C2 fixtures: tracked and live slave volume agree at 0.5, and the
master halves a 1.0 position, so the close degrades to a full one. -/
def stC2 : TrackerState := { mappings := [(100, mapSlave (1/2))] }

/-- C3 fixture: an environment that knows no symbol information at all
but still reports a live slave position and accepts orders. -/
def envC3 : MT5Env :=
  { positions_get := fun t =>
      if t = 555 then
        [{ ticket := 555, symbol := "EURUSD", type := 0, volume := 1,
           price_open := 1, price_current := 1, sl := 0, tp := 0 }]
      else [],
    symbol_info := fun _ => none,
    symbol_info_tick := fun s => if s = "EURUSD" then some tick0 else none,
    symbol_select := fun _ => true,
    order_send := fun req => some { retcode := 10009, order := 777, price := req.price } }

def stC3 : TrackerState := { mappings := [(100, mapSlave 1)] }

/-- Two stored mappings for the cleanup counterexample. -/
def mapA : PositionMapping :=
  { master_ticket := 1, slave_ticket := 11, symbol := "EURUSD",
    direction := "BUY", master_volume := 1, slave_volume := 1,
    master_open_price := 1, slave_open_price := 1 }

def mapB : PositionMapping :=
  { master_ticket := 2, slave_ticket := 12, symbol := "EURUSD",
    direction := "SELL", master_volume := 2, slave_volume := 2,
    master_open_price := 1, slave_open_price := 1 }

def stC9 : TrackerState := { mappings := [(1, mapA), (2, mapB)] }

/-- Monitor fixtures: ticket 1 has its SL moved and its volume halved,
ticket 2 is new. -/
def posM1prev : TradePosition :=
  { ticket := 1, symbol := "EURUSD", type := 0, volume := 1,
    price_open := 1, price_current := 1, sl := 1, tp := 2 }

def posM1cur : TradePosition :=
  { ticket := 1, symbol := "EURUSD", type := 0, volume := 1/2,
    price_open := 1, price_current := 1, sl := 3/2, tp := 2 }

def posM2 : TradePosition :=
  { ticket := 2, symbol := "GBPUSD", type := 1, volume := 1,
    price_open := 1, price_current := 1, sl := 0, tp := 0 }

def stMon : MonitorState := { previous_snapshot := [posM1prev], initialized := true }

/-- C7 fixture: a NEW event whose master ticket is already mapped. -/
def evNew100 : TradeEvent :=
  { event_type := .NEW_POSITION, master_ticket := 100,
    position := some (masterPos 1) }

def stC7 : TrackerState := { mappings := [(100, mapSlave 1)] }

/-- C8 fixture: a CLOSED event with no mapping anywhere. -/
def evClosed100 : TradeEvent :=
  { event_type := .CLOSED_POSITION, master_ticket := 100,
    previous_position := some (masterPos 1) }

def trackerEmpty : TrackerState := { mappings := [] }

/-- The tickets of a snapshot are pairwise distinct. -/
def NodupTickets (l : List TradePosition) : Prop :=
  (l.map (fun p => p.ticket)).Nodup

/-! ## Supporting lemmas: the snapshot differencer -/

theorem foldl_append_filter_map {α β : Type} (c : α → Bool) (f : α → β)
    (l : List α) (init : List β) :
    l.foldl (fun acc p => if c p then acc else acc ++ [f p]) init
      = init ++ (l.filter (fun p => !c p)).map f := by
  induction l generalizing init with
  | nil => simp
  | cons p l ih =>
    by_cases h : c p = true
    · simp [List.foldl_cons, h, ih]
    · simp only [Bool.not_eq_true] at h
      simp [List.foldl_cons, h, ih]

theorem foldl_append_flatMap {α β : Type} (g : α → List β)
    (l : List α) (init : List β) :
    l.foldl (fun acc p => acc ++ g p) init = init ++ l.flatMap g := by
  induction l generalizing init with
  | nil => simp
  | cons p l ih => simp [List.foldl_cons, ih]

theorem modLoopBody_eq (prev : List TradePosition) (acc : List TradeEvent)
    (c : TradePosition) :
    (match lookupTicket prev c.ticket with
      | none => acc
      | some pr => acc ++ modEventsFor c pr)
      = acc ++ (match lookupTicket prev c.ticket with
      | none => []
      | some pr => modEventsFor c pr) := by
  cases lookupTicket prev c.ticket <;> simp

/-- The differencer's output on a non-first call is exactly the
specification's ordered recomposition. -/
theorem detect_changes_eq_spec (st : MonitorState)
    (curr : List TradePosition) (h : st.initialized = true) :
    (detect_changes st curr).1
      = spec_events st.previous_snapshot (buildSnapshot curr) := by
  unfold detect_changes spec_events
  rw [h]
  simp only [Bool.true_eq_false, if_false]
  rw [foldl_append_filter_map, foldl_append_filter_map]
  have h3 : ∀ (init : List TradeEvent),
      (buildSnapshot curr).foldl (fun acc c =>
        match lookupTicket st.previous_snapshot c.ticket with
        | none => acc
        | some pr => acc ++ modEventsFor c pr) init
      = init ++ (buildSnapshot curr).flatMap (fun c =>
        match lookupTicket st.previous_snapshot c.ticket with
        | none => []
        | some pr => modEventsFor c pr) := by
    induction buildSnapshot curr with
    | nil => simp
    | cons c l ih =>
      intro init
      rw [List.foldl_cons, modLoopBody_eq st.previous_snapshot init c, ih]
      simp [List.append_assoc]
  rw [h3]
  simp [List.append_assoc]

/-- After any call, the retained state is the fresh snapshot with the
initialized flag set. -/
theorem detect_changes_snd (st : MonitorState) (curr : List TradePosition) :
    (detect_changes st curr).2
      = { previous_snapshot := buildSnapshot curr, initialized := true } := by
  unfold detect_changes
  cases h : st.initialized <;> simp [h]

theorem snapInsert_tickets (acc : List TradePosition) (p : TradePosition) (t : ℤ) :
    t ∈ (snapInsert acc p).map (fun q => q.ticket)
      ↔ t ∈ acc.map (fun q => q.ticket) ∨ t = p.ticket := by
  induction acc with
  | nil => simp [snapInsert]
  | cons q rest ih =>
    by_cases h : q.ticket = p.ticket
    · simp only [snapInsert, if_pos h, List.map_cons, List.mem_cons]
      rw [h]
      tauto
    · simp only [snapInsert, if_neg h, List.map_cons, List.mem_cons, ih]
      tauto

theorem snapInsert_nodup (acc : List TradePosition) (p : TradePosition)
    (h : NodupTickets acc) : NodupTickets (snapInsert acc p) := by
  induction acc with
  | nil => simp [snapInsert, NodupTickets]
  | cons q rest ih =>
    simp only [NodupTickets, List.map_cons, List.nodup_cons] at h
    by_cases hq : q.ticket = p.ticket
    · simp only [NodupTickets, snapInsert, hq, if_true, List.map_cons, List.nodup_cons]
      exact ⟨hq ▸ h.1, h.2⟩
    · simp only [NodupTickets, snapInsert, hq, if_false, List.map_cons, List.nodup_cons]
      refine ⟨?_, ih h.2⟩
      intro hmem
      rcases (snapInsert_tickets rest p q.ticket).1 hmem with h1 | h2
      · exact h.1 h1
      · exact hq h2

theorem buildSnapshot_nodup (ps : List TradePosition) :
    NodupTickets (buildSnapshot ps) := by
  have aux : ∀ acc, NodupTickets acc → NodupTickets (ps.foldl snapInsert acc) := by
    induction ps with
    | nil => intro acc h; simpa using h
    | cons p rest ih =>
      intro acc h
      exact ih (snapInsert acc p) (snapInsert_nodup acc p h)
  exact aux [] (by simp [NodupTickets])

theorem mem_hasTicket (l : List TradePosition) (p : TradePosition)
    (h : p ∈ l) : hasTicket l p.ticket = true := by
  induction l with
  | nil => simp at h
  | cons q rest ih =>
    rcases List.mem_cons.1 h with rfl | hmem
    · simp [hasTicket, lookupTicket, List.find?_cons]
    · by_cases hq : (q.ticket == p.ticket) = true
      · simp [hasTicket, lookupTicket, List.find?_cons, hq]
      · simpa [hasTicket, lookupTicket, List.find?_cons, hq] using ih hmem

theorem lookupTicket_self (l : List TradePosition) (p : TradePosition)
    (hnd : NodupTickets l) (h : p ∈ l) : lookupTicket l p.ticket = some p := by
  induction l with
  | nil => simp at h
  | cons q rest ih =>
    simp only [NodupTickets, List.map_cons, List.nodup_cons] at hnd
    rcases List.mem_cons.1 h with rfl | hmem
    · simp [lookupTicket, List.find?_cons]
    · have hne : q.ticket ≠ p.ticket := by
        intro he
        exact hnd.1 (he ▸ List.mem_map_of_mem (fun r => r.ticket) hmem)
      have : (q.ticket == p.ticket) = false := by
        simpa using hne
      simpa [lookupTicket, List.find?_cons, this] using ih hnd.2 hmem

theorem eps_pos : 0 < eps := by
  norm_num [eps]

theorem modEventsFor_self (c : TradePosition) : modEventsFor c c = [] := by
  have h1 : ¬ eps < |c.sl - c.sl| := by
    rw [sub_self, abs_zero]
    exact not_lt.2 (le_of_lt eps_pos)
  have h2 : ¬ eps < |c.tp - c.tp| := by
    rw [sub_self, abs_zero]
    exact not_lt.2 (le_of_lt eps_pos)
  have h3 : ¬ c.volume < c.volume - eps := by
    exact not_lt.2 (sub_le_self _ (le_of_lt eps_pos))
  simp [modEventsFor, h1, h2, h3, le_of_lt eps_pos]

/-- Diffing a (duplicate-free) snapshot against itself yields nothing. -/
theorem spec_events_self (snap : List TradePosition) (hnd : NodupTickets snap) :
    spec_events snap snap = [] := by
  unfold spec_events
  have hfilter : snap.filter (fun p => !hasTicket snap p.ticket) = [] := by
    apply List.filter_eq_nil_iff.2
    intro p hp
    simp [mem_hasTicket snap p hp]
  have hflat : (snap.flatMap (fun c =>
      match lookupTicket snap c.ticket with
      | none => []
      | some pr => modEventsFor c pr)) = [] := by
    apply List.flatMap_eq_nil_iff.2
    intro c hc
    rw [lookupTicket_self snap c hnd hc]
    exact modEventsFor_self c
  simp [hfilter, hflat]

/-! ## Supporting lemmas: the mapping store -/

theorem assocGet_update (k : ℤ) (f : PositionMapping → PositionMapping)
    (l : List (ℤ × PositionMapping)) :
    assocGet k (assocUpdate k f l) = (assocGet k l).map f := by
  induction l with
  | nil => simp [assocGet, assocUpdate]
  | cons kv rest ih =>
    by_cases h : kv.1 = k
    · simp [assocGet, assocUpdate, h]
    · simp [assocGet, assocUpdate, h, ih]

theorem assocGet_none_iff (k : ℤ) (l : List (ℤ × PositionMapping)) :
    assocGet k l = none ↔ ∀ kv ∈ l, kv.1 ≠ k := by
  induction l with
  | nil => simp [assocGet]
  | cons kv rest ih =>
    by_cases h : kv.1 = k
    · simp [assocGet, h]
    · simp [assocGet, h, ih]

theorem assocRemove_sublist (k : ℤ) (l : List (ℤ × PositionMapping)) :
    (assocRemove k l).Sublist l := by
  induction l with
  | nil => simp [assocRemove]
  | cons kv rest ih =>
    by_cases h : kv.1 = k
    · simp only [assocRemove, if_pos h]
      exact List.sublist_cons_self kv rest
    · simp only [assocRemove, if_neg h]
      exact List.Sublist.cons₂ kv ih

theorem filter_key_ne_of_absent (k : ℤ) (l : List (ℤ × PositionMapping))
    (h : ∀ kv ∈ l, kv.1 ≠ k) :
    l.filter (fun kv => decide (kv.1 ≠ k)) = l := by
  apply List.filter_eq_self.2
  intro kv hm
  simpa using h kv hm

theorem assocRemove_eq_filter (k : ℤ) (l : List (ℤ × PositionMapping))
    (h : (l.map Prod.fst).Nodup) :
    assocRemove k l = l.filter (fun kv => decide (kv.1 ≠ k)) := by
  induction l with
  | nil => simp [assocRemove]
  | cons kv rest ih =>
    simp only [List.map_cons, List.nodup_cons] at h
    by_cases hk : kv.1 = k
    · have hrest : rest.filter (fun kv => decide (kv.1 ≠ k)) = rest :=
        filter_key_ne_of_absent k rest
          (fun kv2 hm2 he =>
            h.1 (by rw [hk, ← he]; exact List.mem_map_of_mem Prod.fst hm2))
      simp only [ne_eq, decide_not] at hrest
      simp only [assocRemove, if_pos hk, List.filter_cons]
      simp [hk, hrest]
    · simp only [assocRemove, if_neg hk, List.filter_cons]
      simp [hk, ih h.2]

theorem assocRemove_length (k : ℤ) (l : List (ℤ × PositionMapping))
    (h : (assocGet k l).isSome = true) :
    (assocRemove k l).length + 1 = l.length := by
  induction l with
  | nil => simp [assocGet] at h
  | cons kv rest ih =>
    by_cases hk : kv.1 = k
    · simp [assocRemove, hk]
    · simp only [assocGet, if_neg hk] at h
      simp [assocRemove, hk, ih h]

theorem cleanup_loop_tracker_mappings (ts : List ℤ) :
    ∀ st : TrackerState, (st.mappings.map Prod.fst).Nodup →
    (cleanup_loop st ts).tracker.mappings
      = st.mappings.filter (fun kv => decide (kv.1 ∉ ts)) := by
  induction ts with
  | nil =>
    intro st _
    simp [cleanup_loop]
  | cons t ts ih =>
    intro st h
    by_cases hm : has_mapping st t = true
    · have hrem : (remove_mapping st t).tracker
          = { mappings := assocRemove t st.mappings } := by
        simp [remove_mapping, hm]
      have hnd : ((assocRemove t st.mappings).map Prod.fst).Nodup :=
        ((assocRemove_sublist t st.mappings).map Prod.fst).nodup h
      calc (cleanup_loop st (t :: ts)).tracker.mappings
          = (cleanup_loop (remove_mapping st t).tracker ts).tracker.mappings := rfl
        _ = (assocRemove t st.mappings).filter (fun kv => decide (kv.1 ∉ ts)) := by
            rw [hrem]; exact ih { mappings := assocRemove t st.mappings } hnd
        _ = ((st.mappings.filter (fun kv => decide (kv.1 ≠ t))).filter
              (fun kv => decide (kv.1 ∉ ts))) := by rw [assocRemove_eq_filter t _ h]
        _ = st.mappings.filter (fun kv => decide (kv.1 ∉ t :: ts)) := by
            rw [List.filter_filter]
            apply List.filter_congr
            intro kv _
            simp only [List.mem_cons, not_or, decide_not]
            rw [Bool.and_comm]
            simp
    · have hrem : (remove_mapping st t).tracker = st := by
        simp [remove_mapping, hm]
      have habs : ∀ kv ∈ st.mappings, kv.1 ≠ t := by
        have : assocGet t st.mappings = none := by
          simp only [has_mapping] at hm
          exact Option.not_isSome_iff_eq_none.1 (by simpa using hm)
        exact (assocGet_none_iff t st.mappings).1 this
      calc (cleanup_loop st (t :: ts)).tracker.mappings
          = (cleanup_loop (remove_mapping st t).tracker ts).tracker.mappings := rfl
        _ = st.mappings.filter (fun kv => decide (kv.1 ∉ ts)) := by
            rw [hrem]; exact ih st h
        _ = st.mappings.filter (fun kv => decide (kv.1 ∉ t :: ts)) := by
            apply List.filter_congr
            intro kv hkv
            simp [List.mem_cons, habs kv hkv]

theorem cleanup_loop_persist_count (ts : List ℤ) :
    ∀ st : TrackerState,
    (cleanup_loop st ts).persists.length
        + (cleanup_loop st ts).tracker.mappings.length
      = st.mappings.length := by
  induction ts with
  | nil =>
    intro st
    simp [cleanup_loop]
  | cons t ts ih =>
    intro st
    by_cases hm : has_mapping st t = true
    · have hrem : (remove_mapping st t).tracker
          = { mappings := assocRemove t st.mappings } := by
        simp [remove_mapping, hm]
      have h1 : (cleanup_loop st (t :: ts)).persists
          = assocRemove t st.mappings :: (cleanup_loop (remove_mapping st t).tracker ts).persists := by
        simp [cleanup_loop, remove_mapping, hm]
      have h2 : (cleanup_loop st (t :: ts)).tracker
          = (cleanup_loop (remove_mapping st t).tracker ts).tracker := rfl
      have hlen := assocRemove_length t st.mappings (by simpa [has_mapping] using hm)
      have hih := ih (remove_mapping st t).tracker
      rw [hrem] at hih
      dsimp only at hih
      rw [h1, h2, hrem]
      simp only [List.length_cons]
      omega
    · have h1 : (cleanup_loop st (t :: ts)).persists
          = (cleanup_loop (remove_mapping st t).tracker ts).persists := by
        simp [cleanup_loop, remove_mapping, hm]
      have h2 : (cleanup_loop st (t :: ts)).tracker
          = (cleanup_loop (remove_mapping st t).tracker ts).tracker := rfl
      have hrem : (remove_mapping st t).tracker = st := by
        simp [remove_mapping, hm]
      rw [h1, h2, hrem]
      exact ih st

theorem cleanup_orphaned_tracker (st : TrackerState) (ts : List ℤ) :
    (cleanup_orphaned st ts).tracker = (cleanup_loop st ts).tracker := by
  unfold cleanup_orphaned
  cases h : ts.isEmpty <;> simp [h]

theorem cleanup_orphaned_persists (st : TrackerState) (ts : List ℤ) :
    (cleanup_orphaned st ts).persists = (cleanup_loop st ts).persists := by
  unfold cleanup_orphaned
  cases h : ts.isEmpty <;> simp [h]

/-! ## Supporting lemmas: gateway traces -/

theorem get_filling_mode_snd (env : MT5Env) (s : String) :
    (get_filling_mode env s).2 = [GCall.symbol_info s] := by
  unfold get_filling_mode
  cases env.symbol_info s with
  | none => rfl
  | some si =>
    by_cases h2 : Int.land si.filling_mode 2 ≠ 0
    · simp [h2]
    · by_cases h1 : Int.land si.filling_mode 1 ≠ 0 <;> simp [h2, h1]

theorem sentComments_get_symbol_info (env : MT5Env) (s : String) :
    sentComments (get_symbol_info env s).2.1 = [] := by
  unfold get_symbol_info
  cases env.symbol_info s with
  | none => rfl
  | some si => cases h : si.visible <;> simp [h, sentComments]

theorem sentComments_close_position (env : MT5Env) (t d : ℤ) :
    ∀ c ∈ sentComments (close_position env t d).calls, c = "CopyTrade Close" := by
  unfold close_position
  cases hpos : env.positions_get t with
  | nil => simp [sentComments]
  | cons pos rest =>
    have hfm := get_filling_mode_snd env pos.symbol
    cases htick : env.symbol_info_tick pos.symbol with
    | none => simp [htick, sentComments]
    | some tick =>
      simp only [htick]
      cases hsend : env.order_send
          { action := TRADE_ACTION_DEAL, symbol := pos.symbol, volume := pos.volume,
            type := if pos.type = 0 then ORDER_TYPE_SELL else ORDER_TYPE_BUY,
            position := some t,
            price := if pos.type = 0 then tick.bid else tick.ask,
            deviation := d, magic := pos.magic, comment := "CopyTrade Close",
            type_time := ORDER_TIME_GTC, type_filling := (get_filling_mode env pos.symbol).1 } with
      | none => simp [hsend, hfm, sentComments]
      | some r =>
        by_cases hr : r.retcode ≠ TRADE_RETCODE_DONE <;>
          simp [hsend, hfm, hr, sentComments]

theorem handle_partial_close_calls (env : MT5Env) (st : TrackerState)
    (event : TradeEvent) (dev : ℤ) (mapping : PositionMapping)
    (pos prev : TradePosition)
    (hm : get_mapping st event.master_ticket = some mapping)
    (hp : event.position = some pos) (hq : event.previous_position = some prev) :
    (handle_partial_close env st event dev).calls
      = (get_symbol_info env pos.symbol).2.1
        ++ (partial_close env mapping.slave_ticket
              (volume_after_normalization (get_symbol_info env pos.symbol).1
                prev.volume pos.volume) dev).calls := by
  unfold handle_partial_close
  rw [hm, hp, hq]
  cases hr : (partial_close env mapping.slave_ticket
      (volume_after_normalization (get_symbol_info env pos.symbol).1
        prev.volume pos.volume) dev).result with
  | error e => simp [hr]
  | ok r => cases hs : r.success <;> simp [hr, hs]

theorem partial_close_degrade (env : MT5Env) (t : ℤ) (v : ℚ) (d : ℤ)
    (lp : TradePosition) (rest : List TradePosition)
    (hl : env.positions_get t = lp :: rest) (hv : lp.volume ≤ v) :
    partial_close env t v d
      = { result := (close_position env t d).result,
          calls := GCall.positions_get t :: (close_position env t d).calls,
          logs := (close_position env t d).logs } := by
  unfold partial_close
  rw [hl]
  simp [hv]

theorem sentComments_append (a b : List GCall) :
    sentComments (a ++ b) = sentComments a ++ sentComments b := by
  simp [sentComments, List.filterMap_append]

theorem sentComments_cons_positions_get (t : ℤ) (b : List GCall) :
    sentComments (GCall.positions_get t :: b) = sentComments b := rfl

/-! ## The claims -/

/-- C5: on every non-first call, `detect_changes` returns exactly the
NEW events (current order), then the CLOSED events (previous order),
then per surviving ticket the `MODIFIED_SL`, `MODIFIED_TP`,
`PARTIAL_CLOSE` events in that fixed order, each gated by the `1e-6`
epsilon comparisons — the order and gating are spelled out by
`spec_events` and `modEventsFor`. -/
theorem C5_event_order (st : MonitorState) (curr : List TradePosition)
    (h : st.initialized = true) :
    (detect_changes st curr).1
      = spec_events st.previous_snapshot (buildSnapshot curr) :=
  detect_changes_eq_spec st curr h

/-- C6: calling `detect_changes` twice in a row on the same position
list yields `[]` on the second call, because the first call
unconditionally replaces the baseline with the current snapshot. -/
theorem C6_detect_changes_idempotent (st : MonitorState)
    (curr : List TradePosition) :
    (detect_changes (detect_changes st curr).2 curr).1 = [] := by
  rw [detect_changes_snd]
  rw [detect_changes_eq_spec _ _ rfl]
  exact spec_events_self _ (buildSnapshot_nodup curr)

/-- C7: a NEW event whose source ticket is already mapped makes zero
gateway calls, leaves the mapping store untouched and persists
nothing (it only logs the duplicate warning). -/
theorem C7_duplicate_new_skipped (env : MT5Env) (st : TrackerState)
    (event : TradeEvent) (dev : ℤ) (now : String) (pos : TradePosition)
    (hp : event.position = some pos)
    (ht : pos.ticket = event.master_ticket)
    (hm : has_mapping st event.master_ticket = true) :
    handle_new env st event dev now
      = { tracker := st, calls := [], logs := [LogLevel.warning],
          persists := [], exc := false } := by
  unfold handle_new
  rw [hp]
  simp [ht, hm]

/-- C8: a CLOSED event with no mapping makes zero gateway calls and logs
exactly one warning; with a mapping, the handler performs exactly the
gateway calls of `close_position` on the mapped slave ticket, and the
mapping is removed exactly when that close reports success (otherwise
the store is left intact). -/
theorem C8_closed_event_semantics (env : MT5Env) (st : TrackerState)
    (event : TradeEvent) (dev : ℤ) :
    (get_mapping st event.master_ticket = none →
      handle_close env st event dev
        = { tracker := st, calls := [], logs := [LogLevel.warning],
            persists := [], exc := false })
    ∧ (∀ mapping, get_mapping st event.master_ticket = some mapping →
        (handle_close env st event dev).calls
            = (close_position env mapping.slave_ticket dev).calls
        ∧ (handle_close env st event dev).tracker
            = if closeSucceeds env mapping.slave_ticket dev = true
              then (remove_mapping st event.master_ticket).tracker
              else st) := by
  constructor
  · intro h
    unfold handle_close
    rw [h]
  · intro mapping h
    unfold handle_close closeSucceeds
    rw [h]
    cases hr : (close_position env mapping.slave_ticket dev).result with
    | error e => simp [hr]
    | ok r => cases hs : r.success <;> simp [hr, hs]

/-- C1 (amended): the degrade-to-full-close decision inside
`partial_close` compares the computed close volume against the volume of
the live slave position fetched from the gateway (not against the
mapping's tracked `slave_volume`): whenever the computed volume reaches
the live volume, the handler performs exactly the full-close routine and
every close order it sends is a full close. -/
theorem C1_degrade_uses_live_volume (env : MT5Env) (st : TrackerState)
    (event : TradeEvent) (dev : ℤ) (mapping : PositionMapping)
    (pos prev lp : TradePosition) (rest : List TradePosition)
    (hm : get_mapping st event.master_ticket = some mapping)
    (hp : event.position = some pos) (hq : event.previous_position = some prev)
    (hl : env.positions_get mapping.slave_ticket = lp :: rest)
    (hv : lp.volume ≤ volume_after_normalization
        (get_symbol_info env pos.symbol).1 prev.volume pos.volume) :
    (handle_partial_close env st event dev).calls
      = (get_symbol_info env pos.symbol).2.1
        ++ (GCall.positions_get mapping.slave_ticket
            :: (close_position env mapping.slave_ticket dev).calls)
    ∧ ∀ c ∈ sentComments (handle_partial_close env st event dev).calls,
        c = "CopyTrade Close" := by
  have hcalls := handle_partial_close_calls env st event dev mapping pos prev hm hp hq
  have hdeg := partial_close_degrade env mapping.slave_ticket
      (volume_after_normalization (get_symbol_info env pos.symbol).1
        prev.volume pos.volume) dev lp rest hl hv
  have hcalls2 : (handle_partial_close env st event dev).calls
      = (get_symbol_info env pos.symbol).2.1
        ++ (GCall.positions_get mapping.slave_ticket
            :: (close_position env mapping.slave_ticket dev).calls) := by
    rw [hcalls, hdeg]
  refine ⟨hcalls2, ?_⟩
  intro c hc
  rw [hcalls2, sentComments_append, sentComments_get_symbol_info,
    sentComments_cons_positions_get, List.nil_append] at hc
  exact sentComments_close_position env mapping.slave_ticket dev c hc

/-- C2 (amended): when the (possibly degraded) close submitted by the
partial-close handler succeeds, the mapping's tracked slave volume is
decreased by exactly the computed close volume — in every case,
including a degraded full close, the mapping stays in the store with the
updated volume; the handler never removes it. -/
theorem C2_success_updates_slave_volume (env : MT5Env) (st : TrackerState)
    (event : TradeEvent) (dev : ℤ) (mapping : PositionMapping)
    (pos prev : TradePosition) (r : OrderResult)
    (hm : get_mapping st event.master_ticket = some mapping)
    (hp : event.position = some pos) (hq : event.previous_position = some prev)
    (hr : (partial_close env mapping.slave_ticket
        (volume_after_normalization (get_symbol_info env pos.symbol).1
          prev.volume pos.volume) dev).result = Except.ok r)
    (hs : r.success = true) :
    get_mapping (handle_partial_close env st event dev).tracker
        event.master_ticket
      = some { mapping with
               slave_volume := mapping.slave_volume
                 - volume_after_normalization (get_symbol_info env pos.symbol).1
                     prev.volume pos.volume } := by
  have hhas : has_mapping st event.master_ticket = true := by
    unfold has_mapping
    unfold get_mapping at hm
    rw [hm]
    rfl
  unfold handle_partial_close
  rw [hm, hp, hq]
  simp only [hr, hs, Bool.true_eq_false, if_false, update_slave_volume, hhas, if_true]
  unfold get_mapping
  dsimp only
  rw [assocGet_update]
  unfold get_mapping at hm
  rw [hm]
  rfl

/-- C3 (amended): when `get_symbol_info` yields nothing, the handler
skips the floor/min normalization entirely — the raw master delta is the
computed close volume — and still proceeds to submit the close through
the gateway; the `step=0.01`/`min=0.01` defaults are never substituted
(they apply only to keys missing from a present symbol-info `dict`,
which always carries them). -/
theorem C3_missing_symbol_info_skips_normalization (env : MT5Env)
    (st : TrackerState) (event : TradeEvent) (dev : ℤ)
    (mapping : PositionMapping) (pos prev : TradePosition)
    (hm : get_mapping st event.master_ticket = some mapping)
    (hp : event.position = some pos) (hq : event.previous_position = some prev)
    (hnone : (get_symbol_info env pos.symbol).1 = none) :
    volume_after_normalization (get_symbol_info env pos.symbol).1
        prev.volume pos.volume = prev.volume - pos.volume
    ∧ (handle_partial_close env st event dev).calls
        = (get_symbol_info env pos.symbol).2.1
          ++ (partial_close env mapping.slave_ticket
                (prev.volume - pos.volume) dev).calls := by
  have h1 : volume_after_normalization (get_symbol_info env pos.symbol).1
      prev.volume pos.volume = prev.volume - pos.volume := by
    rw [hnone]
    rfl
  refine ⟨h1, ?_⟩
  rw [handle_partial_close_calls env st event dev mapping pos prev hm hp hq, h1]

/-- C4: for any present symbol info, the computed close volume is
`round8(max(floor(rawDelta / step) * step, volumeMin))` with
`rawDelta = previousVolume - currentVolume`; in particular
`previousVolume=1.00, currentVolume=0.63, step=0.01, volumeMin=0.01`
gives `0.37`. -/
theorem C4_normalization_formula_and_value :
    (∀ (si : SymbolInfoDict) (prevV curV : ℚ),
      volume_after_normalization (some si) prevV curV
        = specNormalize (prevV - curV) si.volume_step si.volume_min)
    ∧ volume_after_normalization (some siEURUSDDict) 1 (63/100) = 37/100 := by
  constructor
  · intro si prevV curV
    rfl
  · norm_num [volume_after_normalization, siEURUSDDict, symbolInfoToDict,
      siEURUSD, pyRound8]

/-- C9 (amended): `cleanup_orphaned` removes exactly the stored mappings
whose master ticket is listed (keeping the others in order), and calls
the persist routine once per mapping actually removed — not once at the
end of the operation. -/
theorem C9_cleanup_removes_and_persists_per_removal (st : TrackerState)
    (ts : List ℤ) (h : (st.mappings.map Prod.fst).Nodup) :
    (cleanup_orphaned st ts).tracker.mappings
        = st.mappings.filter (fun kv => decide (kv.1 ∉ ts))
    ∧ (cleanup_orphaned st ts).persists.length
          + (cleanup_orphaned st ts).tracker.mappings.length
        = st.mappings.length := by
  rw [cleanup_orphaned_tracker, cleanup_orphaned_persists]
  exact ⟨cleanup_loop_tracker_mappings ts st h, cleanup_loop_persist_count ts st⟩

/-- C10: loading from a backup file that exists but fails JSON parsing
is caught: the in-memory table is reset to empty (any previously loaded
mappings are dropped), one error is logged, and the call returns
normally. -/
theorem C10_load_unparsable_resets (st : TrackerState) :
    load_from_file st BackupFile.unparsable
      = ({ mappings := [] }, [LogLevel.error]) := rfl

/-! ## Witnesses and counterexamples

Kernel evaluation of concrete rationals needs the Batteries arithmetic
on `Rat` to be unfoldable here. -/

section
attribute [local semireducible] Rat.add Rat.sub Rat.mul Rat.inv Rat.ofScientific

/-- C1, the claim as frozen, is false on the code: here the computed
close volume (0.6) reaches the mapping's tracked slave volume (0.5), yet
the engine submits a partial close — because the live slave position
still holds 1.0 lot, and the code compares against that. -/
theorem C1_tracked_volume_counterexample :
    (mapSlave (1/2)).slave_volume
        ≤ volume_after_normalization (get_symbol_info (envSlave 1) "EURUSD").1 1 (2/5)
    ∧ sentComments (handle_partial_close (envSlave 1) stC1 (pcEvent 1 (2/5)) 20).calls
        = ["CopyTrade Partial"] := by
  refine ⟨by decide, by decide⟩

/-- C1 witness: tracked and live volumes agree at 0.5 and the computed
close volume 0.5 reaches it, so the handler runs the full-close routine. -/
theorem C1_degrade_uses_live_volume_witness :
    (handle_partial_close (envSlave (1/2)) stC2 (pcEvent 1 (1/2)) 20).calls
      = (get_symbol_info (envSlave (1/2)) "EURUSD").2.1
        ++ (GCall.positions_get 555
            :: (close_position (envSlave (1/2)) 555 20).calls) :=
  (C1_degrade_uses_live_volume (envSlave (1/2)) stC2 (pcEvent 1 (1/2)) 20
    (mapSlave (1/2)) (masterPos (1/2)) (masterPos 1)
    { ticket := 555, symbol := "EURUSD", type := 0, volume := 1/2,
      price_open := 1, price_current := 1, sl := 0, tp := 0 } []
    (by decide) rfl rfl (by decide) (by decide)).1

/-- C2, the claim as frozen, is false on the code: this partial close
degrades to a full close and the full close succeeds, yet the mapping is
not removed — it stays in the store with its volume driven to zero. -/
theorem C2_full_close_keeps_mapping_counterexample :
    sentComments (handle_partial_close (envSlave (1/2)) stC2 (pcEvent 1 (1/2)) 20).calls
        = ["CopyTrade Close"]
    ∧ (partial_close (envSlave (1/2)) 555 (1/2) 20).result
        = Except.ok { success := true, ticket := some 555, retcode := some 10009 }
    ∧ has_mapping (handle_partial_close (envSlave (1/2)) stC2 (pcEvent 1 (1/2)) 20).tracker 100
        = true
    ∧ get_mapping (handle_partial_close (envSlave (1/2)) stC2 (pcEvent 1 (1/2)) 20).tracker 100
        = some { mapSlave (1/2) with slave_volume := 0 } := by
  refine ⟨by decide, rfl, by decide, by decide⟩

/-- C2 witness: the amended statement evaluated on the degraded
full-close fixture. -/
theorem C2_success_updates_slave_volume_witness :
    get_mapping (handle_partial_close (envSlave (1/2)) stC2 (pcEvent 1 (1/2)) 20).tracker 100
      = some { mapSlave (1/2) with
               slave_volume := (mapSlave (1/2)).slave_volume
                 - volume_after_normalization
                     (get_symbol_info (envSlave (1/2)) "EURUSD").1 1 (1/2) } :=
  C2_success_updates_slave_volume (envSlave (1/2)) stC2 (pcEvent 1 (1/2)) 20
    (mapSlave (1/2)) (masterPos (1/2)) (masterPos 1)
    { success := true, ticket := some 555, retcode := some 10009 }
    (by decide) rfl rfl rfl rfl

/-- C3, the claim as frozen, is false on the code: with symbol info
unavailable the engine submits the raw delta 0.005 — not the
0.01 that the claimed fallback normalization (step=0.01, min=0.01)
would produce. -/
theorem C3_missing_symbol_info_counterexample :
    (get_symbol_info envC3 "EURUSD").1 = none
    ∧ sentVolumes (handle_partial_close envC3 stC3 (pcEvent 1 (199/200)) 20).calls
        = [1/200]
    ∧ specNormalize (1 - 199/200) (1/100) (1/100) = 1/100
    ∧ ¬ ((1:ℚ)/200 = 1/100) := by
  refine ⟨rfl, by decide, by decide, by decide⟩

/-- C3 witness: the amended statement evaluated on the
missing-symbol-info fixture. -/
theorem C3_missing_symbol_info_skips_normalization_witness :
    volume_after_normalization (get_symbol_info envC3 "EURUSD").1 1 (199/200)
        = 1 - 199/200
    ∧ (handle_partial_close envC3 stC3 (pcEvent 1 (199/200)) 20).calls
        = (get_symbol_info envC3 "EURUSD").2.1
          ++ (partial_close envC3 555 (1 - 199/200) 20).calls :=
  C3_missing_symbol_info_skips_normalization envC3 stC3 (pcEvent 1 (199/200)) 20
    (mapSlave 1) (masterPos (199/200)) (masterPos 1) (by decide) rfl rfl rfl

/-- C5 witness: a pass in which ticket 2 is new and ticket 1 has both a
stop-loss change and a volume decrease; the output is the NEW event,
then MODIFIED_SL, then PARTIAL_CLOSE. -/
theorem C5_event_order_witness :
    (detect_changes stMon [posM1cur, posM2]).1
        = spec_events stMon.previous_snapshot (buildSnapshot [posM1cur, posM2])
    ∧ (detect_changes stMon [posM1cur, posM2]).1
        = [{ event_type := .NEW_POSITION, master_ticket := 2,
             position := some posM2 },
           { event_type := .MODIFIED_SL, master_ticket := 1,
             position := some posM1cur, previous_position := some posM1prev },
           { event_type := .PARTIAL_CLOSE, master_ticket := 1,
             position := some posM1cur, previous_position := some posM1prev }] :=
  ⟨C5_event_order stMon [posM1cur, posM2] rfl, by decide⟩

/-- C7 witness: a NEW event for the already-mapped ticket 100 leaves the
store alone and calls no gateway function. -/
theorem C7_duplicate_new_skipped_witness :
    handle_new envEmpty stC7 evNew100 20 ""
      = { tracker := stC7, calls := [], logs := [LogLevel.warning],
          persists := [], exc := false } :=
  C7_duplicate_new_skipped envEmpty stC7 evNew100 20 "" (masterPos 1) rfl rfl
    (by decide)

/-- C8 witness: a CLOSED event on an empty store makes no gateway call
and logs exactly one warning. -/
theorem C8_closed_event_semantics_witness :
    handle_close envEmpty trackerEmpty evClosed100 20
      = { tracker := trackerEmpty, calls := [], logs := [LogLevel.warning],
          persists := [], exc := false } :=
  (C8_closed_event_semantics envEmpty trackerEmpty evClosed100 20).1 rfl

/-- C9, the claim as frozen, is false on the code: cleaning up two
stored mappings persists twice (once per removal), not exactly once at
the end. -/
theorem C9_cleanup_single_persist_counterexample :
    (cleanup_orphaned stC9 [1, 2]).persists = [[(2, mapB)], []]
    ∧ (cleanup_orphaned stC9 [1, 2]).tracker.mappings = []
    ∧ (cleanup_orphaned stC9 [1, 2]).persists.length ≠ 1 := by
  refine ⟨by decide, by decide, by decide⟩

/-- C9 witness: the amended statement evaluated on the two-mapping
store. -/
theorem C9_cleanup_removes_and_persists_per_removal_witness :
    (cleanup_orphaned stC9 [1, 2]).tracker.mappings
        = stC9.mappings.filter (fun kv => decide (kv.1 ∉ ([1, 2] : List ℤ)))
    ∧ (cleanup_orphaned stC9 [1, 2]).persists.length
          + (cleanup_orphaned stC9 [1, 2]).tracker.mappings.length
        = stC9.mappings.length :=
  C9_cleanup_removes_and_persists_per_removal stC9 [1, 2] (by decide)

end

end CopyTrade
